import Mathlib

/-!
Shallow embedding of the Pomodoro/Revision study-timer application
(`PomodoroTimer.py`): the cyclic Pomodoro timer, the single-mode revision
timer, and the `DataManager` persistence layer, together with theorems
about their behaviour.

Python integers are modelled as `Int`; a Python call that can raise an
exception is modelled as an `Option`-valued function (`none` = the call
raises). Timestamps produced by `datetime.now()` are passed in explicitly
as a `String` argument `now`.
-/

/-- Session types form a closed enum: the cyclic timer uses the first
three; the revision timer uses `revision`. -/
inductive SessionType where
  | work
  | short_break
  | long_break
  | revision
deriving DecidableEq, Repr

/-- The cyclic timer's `_timer_config` dictionary: four integer keys. -/
structure TimerConfig where
  work_duration : Int
  short_break : Int
  long_break : Int
  sessions_until_long_break : Int
deriving DecidableEq, Repr

/-- A session record as built in `complete_session`: the dictionary with
keys `type`, `duration`, `completed_at`, `session_number`. -/
structure SessionRecord where
  type : SessionType
  duration : Int
  completed_at : String
  session_number : Int
deriving DecidableEq, Repr

/-- An argument to `PomodoroTimer.update_config`: a dictionary that may
supply any subset of the four configuration keys (`none` = key absent). -/
structure NewConfig where
  work_duration : Option Int := none
  short_break : Option Int := none
  long_break : Option Int := none
  sessions_until_long_break : Option Int := none
deriving DecidableEq, Repr

namespace PomodoroTimer

/-- The mutable state of a `PomodoroTimer` instance (fields set by
`BaseTimer.__init__` and `PomodoroTimer.__init__`). -/
structure State where
  timer_config : TimerConfig
  completed_sessions : List SessionRecord
  current_session_type : SessionType
  sessions_completed : Int
  total_sessions : Int
  remaining_time : Int
  is_running : Bool
deriving DecidableEq, Repr

/-- The set `_session_types` of valid session types for the cyclic timer. -/
def session_types : List SessionType :=
  [SessionType.work, SessionType.short_break, SessionType.long_break]

/-- `PomodoroTimer.__init__(work_duration, short_break, long_break)`. -/
def init (work_duration short_break long_break : Int) : State :=
  { timer_config :=
      { work_duration := work_duration
        short_break := short_break
        long_break := long_break
        sessions_until_long_break := 4 }
    completed_sessions := []
    current_session_type := SessionType.work
    sessions_completed := 0
    total_sessions := 0
    remaining_time := work_duration * 60
    is_running := false }

/-- `_get_session_duration(session_type)`: duration in minutes looked up
from the configuration; the final `else` branch returns `work_duration`. -/
def get_session_duration (cfg : TimerConfig) : SessionType → Int
  | SessionType.work => cfg.work_duration
  | SessionType.short_break => cfg.short_break
  | SessionType.long_break => cfg.long_break
  | SessionType.revision => cfg.work_duration

/-- `update_config(new_config)`. Returns `none` when the Python code
raises `KeyError`: `new_config['work_duration']` is evaluated first, and
`new_config['short_break']` is evaluated only when the first value is
positive (short-circuit `or`). On success returns the new state and the
boolean result. -/
def update_config (s : State) (nc : NewConfig) : Option (State × Bool) :=
  match nc.work_duration with
  | none => none
  | some wd =>
    if wd ≤ 0 then some (s, false)
    else
      match nc.short_break with
      | none => none
      | some sb =>
        if sb ≤ 0 then some (s, false)
        else
          let cfg : TimerConfig :=
            { work_duration := wd
              short_break := sb
              long_break := (nc.long_break).getD s.timer_config.long_break
              sessions_until_long_break :=
                (nc.sessions_until_long_break).getD
                  s.timer_config.sessions_until_long_break }
          let s1 := { s with timer_config := cfg }
          if s1.is_running then some (s1, true)
          else some ({ s1 with remaining_time := cfg.work_duration * 60 }, true)

/-- `start_timer()` (overridden): sets `_is_running` to `True`. -/
def start_timer (s : State) : State := { s with is_running := true }

/-- `set_running_state(state)` from `BaseTimer`; pausing/stopping the
timer calls it with `False`. -/
def set_running_state (b : Bool) (s : State) : State := { s with is_running := b }

/-- `get_next_session_type()`: pure function of the state. Returns `none`
when the Python code raises `ZeroDivisionError` (modulo by a zero
`sessions_until_long_break`). -/
def get_next_session_type (s : State) : Option SessionType :=
  if s.current_session_type = SessionType.work then
    if s.timer_config.sessions_until_long_break = 0 then none
    else if (s.sessions_completed + 1) % s.timer_config.sessions_until_long_break = 0 then
      some SessionType.long_break
    else
      some SessionType.short_break
  else
    some SessionType.work

/-- `complete_session()`: appends the record, increments the counters for
a finished work session, then advances the session type and resets the
remaining time. When `get_next_session_type` raises (`none`), the
exception propagates after the record append and counter update, so the
session type and remaining time are left unchanged. -/
def complete_session (now : String) (s : State) : State :=
  let record : SessionRecord :=
    { type := s.current_session_type
      duration := get_session_duration s.timer_config s.current_session_type
      completed_at := now
      session_number :=
        if s.current_session_type = SessionType.work then s.sessions_completed + 1
        else s.sessions_completed }
  let s1 := { s with completed_sessions := s.completed_sessions ++ [record] }
  let s2 :=
    if s.current_session_type = SessionType.work then
      { s1 with sessions_completed := s1.sessions_completed + 1
                total_sessions := s1.total_sessions + 1 }
    else s1
  match get_next_session_type s2 with
  | some t =>
      { s2 with current_session_type := t
                remaining_time := get_session_duration s2.timer_config t * 60 }
  | none => s2

/-- `get_current_session_info()`: the (type, remaining seconds,
completed-session count) tuple. -/
def get_current_session_info (s : State) : SessionType × Int × Int :=
  (s.current_session_type, s.remaining_time, s.sessions_completed)

/-- An operation on the cyclic timer from the set {start, pause/stop,
complete_session} (pausing calls `set_running_state(False)`). -/
inductive BasicOp where
  | start
  | pause
  | complete (now : String)

/-- Applies one basic operation to a cyclic-timer state. -/
def applyBasicOp (op : BasicOp) (s : State) : State :=
  match op with
  | BasicOp.start => start_timer s
  | BasicOp.pause => set_running_state false s
  | BasicOp.complete now => complete_session now s

/-- Runs a sequence of basic operations from a given state. -/
def runBasic (ops : List BasicOp) (s : State) : State :=
  ops.foldl (fun s op => applyBasicOp op s) s

/-- An operation on the cyclic timer from the full set {start, pause/stop,
complete_session, update_config}; a failing (or raising) `update_config`
leaves the state unchanged. -/
inductive Op where
  | start
  | pause
  | complete (now : String)
  | update (nc : NewConfig)

/-- Applies one operation to a cyclic-timer state. -/
def applyOp (op : Op) (s : State) : State :=
  match op with
  | Op.start => start_timer s
  | Op.pause => set_running_state false s
  | Op.complete now => complete_session now s
  | Op.update nc =>
      match update_config s nc with
      | some (s1, _) => s1
      | none => s

/-- Runs a sequence of operations from a given state. -/
def run (ops : List Op) (s : State) : State :=
  ops.foldl (fun s op => applyOp op s) s

end PomodoroTimer

namespace RevisionTimer

/-- The mutable state of a `RevisionTimer` instance. `duration` is
`_duration`, stored in seconds; `_current_session_type` is the constant
`'revision'` and is kept implicit. -/
structure State where
  duration : Int
  remaining_time : Int
  completed_sessions : List SessionRecord
  sessions_completed : Int
  total_sessions : Int
  is_running : Bool
deriving DecidableEq, Repr

/-- `RevisionTimer.__init__(duration)` (duration in minutes). -/
def init (duration : Int) : State :=
  { duration := duration * 60
    remaining_time := duration * 60
    completed_sessions := []
    sessions_completed := 0
    total_sessions := 0
    is_running := false }

/-- `start_timer()` (overridden): sets `_is_running` to `True`. -/
def start_timer (s : State) : State := { s with is_running := true }

/-- `get_current_session_info()`: the `("revision", remaining, total)`
tuple (the third component is `_total_sessions`). -/
def get_current_session_info (s : State) : SessionType × Int × Int :=
  (SessionType.revision, s.remaining_time, s.total_sessions)

/-- `get_timer_config()`: the `duration` entry, `_duration // 60`
(Python floor division). -/
def get_timer_config (s : State) : Int := Int.fdiv s.duration 60

/-- `update_config(new_config)`: the argument is the optional `duration`
entry of the dictionary (`none` = key absent). -/
def update_config (s : State) (nc : Option Int) : State × Bool :=
  match nc with
  | some d =>
      if 0 < d then
        let s1 := { s with duration := d * 60 }
        if s1.is_running then (s1, true)
        else ({ s1 with remaining_time := s1.duration }, true)
      else (s, false)
  | none => (s, false)

/-- `complete_session()`: appends the record, increments both counters,
and resets the remaining time to `_duration`. -/
def complete_session (now : String) (s : State) : State :=
  let record : SessionRecord :=
    { type := SessionType.revision
      duration := Int.fdiv s.duration 60
      completed_at := now
      session_number := s.sessions_completed + 1 }
  { s with completed_sessions := s.completed_sessions ++ [record]
           sessions_completed := s.sessions_completed + 1
           total_sessions := s.total_sessions + 1
           remaining_time := s.duration }

/-- `get_next_session_type()`: always `'revision'`. -/
def get_next_session_type (_ : State) : SessionType := SessionType.revision

/-- An operation on the revision timer from the set {start_timer,
update_config, complete_session}. -/
inductive Op where
  | start
  | update (nc : Option Int)
  | complete (now : String)

/-- Applies one operation to a revision-timer state. -/
def applyOp (op : Op) (s : State) : State :=
  match op with
  | Op.start => start_timer s
  | Op.update nc => (update_config s nc).1
  | Op.complete now => complete_session now s

/-- Runs a sequence of operations from a given state. -/
def run (ops : List Op) (s : State) : State :=
  ops.foldl (fun s op => applyOp op s) s

end RevisionTimer

namespace DataManager

/-- The content of a persisted JSON file at the granularity the loader
inspects: each required or optional top-level key present or absent. -/
structure StoredData where
  timer_config : Option TimerConfig
  sessions_completed : Option Int
  completed_sessions : Option (List SessionRecord)
  last_saved : Option String
deriving DecidableEq, Repr

/-- A file on disk: either a parsable JSON object or bytes on which
`json.load` raises. -/
inductive FileContent where
  | json (d : StoredData)
  | corrupt
deriving DecidableEq, Repr

/-- The durable store: the primary file `self.filename` and the backup
file `self.backup_filename`, each possibly absent. -/
structure Store where
  primary : Option FileContent
  backup : Option FileContent
deriving DecidableEq, Repr

/-- `save_timer_data(timer)` for a cyclic timer: builds the data
dictionary from the timer's accessors (`sessions_completed` is
`get_total_sessions()`), copies any existing primary file to the backup
path, then overwrites the primary file. Returns the new store and the
boolean result. -/
def save_timer_data (timer : PomodoroTimer.State) (now : String) (st : Store) :
    Store × Bool :=
  let d : StoredData :=
    { timer_config := some timer.timer_config
      sessions_completed := some timer.total_sessions
      completed_sessions := some timer.completed_sessions
      last_saved := some now }
  let backup1 :=
    match st.primary with
    | some c => some c
    | none => st.backup
  ({ primary := some (FileContent.json d), backup := backup1 }, true)

/-- `_load_from_backup()`: returns the parsed backup without any key
validation; a missing or unparsable backup yields `None`. -/
def load_from_backup (st : Store) : Option StoredData :=
  match st.backup with
  | some (FileContent.json d) => some d
  | some FileContent.corrupt => none
  | none => none

/-- `load_timer_data()`: absent primary yields `None`; an unparsable
primary raises inside the `try`, so the handler falls back to the backup;
a parsable primary missing any of the three required keys yields `None`
directly (no exception is raised, so no backup fallback). -/
def load_timer_data (st : Store) : Option StoredData :=
  match st.primary with
  | none => none
  | some FileContent.corrupt => load_from_backup st
  | some (FileContent.json d) =>
      if d.timer_config = none ∨ d.sessions_completed = none ∨
          d.completed_sessions = none then none
      else some d

end DataManager

namespace PomodoroTimer

/-- A configuration is valid when all three durations are positive and the
long-break period is nonzero (so the modulo in `get_next_session_type`
cannot raise). -/
def GoodConfig (c : TimerConfig) : Prop :=
  1 ≤ c.work_duration ∧ 1 ≤ c.short_break ∧ 1 ≤ c.long_break ∧
    c.sessions_until_long_break ≠ 0

/-- The state invariant of the cyclic timer claimed by the specification:
the remaining time lies between 0 and the current session's duration in
seconds, and the current session type is one of the valid types. -/
def Inv (s : State) : Prop :=
  0 ≤ s.remaining_time ∧
    s.remaining_time ≤ get_session_duration s.timer_config s.current_session_type * 60 ∧
    s.current_session_type ∈ session_types

end PomodoroTimer

/-- The state reached from `PomodoroTimer.init 25 5 15` by completing the
first work session and then applying a successful `update_config` that
re-supplies the existing durations: the remaining time has been reset to
the work duration (1500 s) although the current session is a short break
(300 s). -/
def counterexampleStateC3 : PomodoroTimer.State :=
  { timer_config :=
      { work_duration := 25, short_break := 5, long_break := 15
        sessions_until_long_break := 4 }
    completed_sessions :=
      [{ type := SessionType.work, duration := 25, completed_at := "t"
         session_number := 1 }]
    current_session_type := SessionType.short_break
    sessions_completed := 1
    total_sessions := 1
    remaining_time := 1500
    is_running := false }

/-- A store whose primary file parses but is missing the required
`completed_sessions` key, while the backup holds a fully valid snapshot. -/
def counterexampleStoreC2 : DataManager.Store :=
  { primary := some (DataManager.FileContent.json
      { timer_config := some
          { work_duration := 25, short_break := 5, long_break := 15
            sessions_until_long_break := 4 }
        sessions_completed := some 2
        completed_sessions := none
        last_saved := some "s" })
    backup := some (DataManager.FileContent.json
      { timer_config := some
          { work_duration := 25, short_break := 5, long_break := 15
            sessions_until_long_break := 4 }
        sessions_completed := some 1
        completed_sessions := some []
        last_saved := some "b" }) }

/-- C1 (counterexample): `update_config` on the cyclic timer does not
accept partial updates: a `new_config` that supplies `short_break` but
omits `work_duration` makes the code raise `KeyError` (modelled `none`)
instead of returning a failure indicator. -/
theorem C1_counterexample :
    PomodoroTimer.update_config (PomodoroTimer.init 25 5 15)
      { short_break := some 5 } = none := rfl

/-- C1 (amended): when `new_config` supplies both `work_duration` and
`short_break`, `update_config` never raises: it returns failure with the
state unchanged when either value is ≤ 0, and otherwise merges exactly
the supplied keys into the configuration and, only if the timer is not
running, resets `remaining_time` to the new work duration times 60. -/
theorem C1_update_config_amended (s : PomodoroTimer.State) (nc : NewConfig)
    (wd sb : Int) (hw : nc.work_duration = some wd) (hs : nc.short_break = some sb) :
    PomodoroTimer.update_config s nc =
      if wd ≤ 0 ∨ sb ≤ 0 then some (s, false)
      else some
        ({ s with
            timer_config :=
              { work_duration := wd
                short_break := sb
                long_break := (nc.long_break).getD s.timer_config.long_break
                sessions_until_long_break :=
                  (nc.sessions_until_long_break).getD
                    s.timer_config.sessions_until_long_break }
            remaining_time :=
              if s.is_running then s.remaining_time else wd * 60 }, true) := by
  simp only [PomodoroTimer.update_config, hw, hs]
  by_cases h1 : wd ≤ 0
  · simp [h1]
  · by_cases h2 : sb ≤ 0
    · simp [h1, h2]
    · by_cases h3 : s.is_running <;> simp [h1, h2, h3]

/-- C1 (witness): the amended theorem applied at a concrete state and a
concrete update supplying both keys with positive values. -/
theorem C1_update_config_amended_witness :
    PomodoroTimer.update_config (PomodoroTimer.init 25 5 15)
      { work_duration := some 30, short_break := some 10 } =
      if (30 : Int) ≤ 0 ∨ (10 : Int) ≤ 0 then some (PomodoroTimer.init 25 5 15, false)
      else some
        ({ PomodoroTimer.init 25 5 15 with
            timer_config :=
              { work_duration := 30
                short_break := 10
                long_break :=
                  (({ work_duration := some 30, short_break := some 10 } :
                      NewConfig).long_break).getD
                    (PomodoroTimer.init 25 5 15).timer_config.long_break
                sessions_until_long_break :=
                  (({ work_duration := some 30, short_break := some 10 } :
                      NewConfig).sessions_until_long_break).getD
                    (PomodoroTimer.init 25 5 15).timer_config.sessions_until_long_break }
            remaining_time :=
              if (PomodoroTimer.init 25 5 15).is_running then
                (PomodoroTimer.init 25 5 15).remaining_time
              else 30 * 60 }, true) :=
  C1_update_config_amended (PomodoroTimer.init 25 5 15)
    { work_duration := some 30, short_break := some 10 } 30 10 rfl rfl

/-- C8: `update_config` with both `work_duration` and `short_break`
supplied and at least one of them ≤ 0 returns failure and leaves the
state (configuration and remaining time) exactly unchanged. -/
theorem C8_invalid_update_rejected (s : PomodoroTimer.State) (nc : NewConfig)
    (wd sb : Int) (hw : nc.work_duration = some wd) (hs : nc.short_break = some sb)
    (h : wd ≤ 0 ∨ sb ≤ 0) :
    PomodoroTimer.update_config s nc = some (s, false) := by
  simp only [PomodoroTimer.update_config, hw, hs]
  by_cases h1 : wd ≤ 0
  · simp [h1]
  · have h2 : sb ≤ 0 := h.resolve_left h1
    simp [h1, h2]

/-- C8 (witness): the theorem applied at a concrete state and a concrete
update with a non-positive work duration. -/
theorem C8_invalid_update_rejected_witness :
    PomodoroTimer.update_config (PomodoroTimer.init 25 5 15)
      { work_duration := some 0, short_break := some 5 } =
      some (PomodoroTimer.init 25 5 15, false) :=
  C8_invalid_update_rejected (PomodoroTimer.init 25 5 15)
    { work_duration := some 0, short_break := some 5 } 0 5 rfl rfl
    (Or.inl (by decide))

/-- C2 (counterexample): with a primary file that parses but is missing
the required `completed_sessions` key and a backup holding a fully valid
snapshot that `_load_from_backup` would return, `load_timer_data` still
returns the absent result: the missing-field path does not fall back to
the backup. -/
theorem C2_counterexample :
    DataManager.load_timer_data counterexampleStoreC2 = none ∧
      DataManager.load_from_backup counterexampleStoreC2 =
        some
          { timer_config := some
              { work_duration := 25, short_break := 5, long_break := 15
                sessions_until_long_break := 4 }
            sessions_completed := some 1
            completed_sessions := some []
            last_saved := some "b" } := by
  constructor <;> rfl

/-- C2 (amended): when the primary file exists and parses but its content
is missing at least one of the three required fields, `load_timer_data`
returns the absent result directly, without consulting the backup (the
backup fallback runs only when reading or parsing the primary raises). -/
theorem C2_missing_fields_return_absent (st : DataManager.Store)
    (d : DataManager.StoredData)
    (hp : st.primary = some (DataManager.FileContent.json d))
    (hmiss : d.timer_config = none ∨ d.sessions_completed = none ∨
      d.completed_sessions = none) :
    DataManager.load_timer_data st = none := by
  simp only [DataManager.load_timer_data, hp]
  exact if_pos hmiss

/-- C2 (witness): the amended theorem applied at a concrete store whose
primary parses but lacks the `completed_sessions` key. -/
theorem C2_missing_fields_return_absent_witness :
    DataManager.load_timer_data counterexampleStoreC2 = none :=
  C2_missing_fields_return_absent counterexampleStoreC2
    { timer_config := some
        { work_duration := 25, short_break := 5, long_break := 15
          sessions_until_long_break := 4 }
      sessions_completed := some 2
      completed_sessions := none
      last_saved := some "s" }
    rfl (Or.inr (Or.inr rfl))

/-- C7: when the primary file exists but is unparsable while the backup
holds a valid parsable snapshot, `load_timer_data` returns the backup's
contents rather than the absent result. -/
theorem C7_corrupt_primary_uses_backup (st : DataManager.Store)
    (d : DataManager.StoredData)
    (hp : st.primary = some DataManager.FileContent.corrupt)
    (hb : st.backup = some (DataManager.FileContent.json d)) :
    DataManager.load_timer_data st = some d := by
  simp only [DataManager.load_timer_data, DataManager.load_from_backup, hp, hb]

/-- C7 (witness): the theorem applied at a concrete store with a corrupt
primary file and a valid backup. -/
theorem C7_corrupt_primary_uses_backup_witness :
    DataManager.load_timer_data
      { primary := some DataManager.FileContent.corrupt
        backup := some (DataManager.FileContent.json
          { timer_config := some
              { work_duration := 25, short_break := 5, long_break := 15
                sessions_until_long_break := 4 }
            sessions_completed := some 0
            completed_sessions := some []
            last_saved := some "b" }) } =
      some
        { timer_config := some
            { work_duration := 25, short_break := 5, long_break := 15
              sessions_until_long_break := 4 }
          sessions_completed := some 0
          completed_sessions := some []
          last_saved := some "b" } :=
  C7_corrupt_primary_uses_backup _ _ rfl rfl

/-- C6: saving any cyclic timer (any number of session records, any
configuration) to any store and then loading yields a present result
whose session-record sequence is exactly the timer's records (in
particular the same count, with identical field values) and whose
configuration equals the timer's configuration at save time. -/
theorem C6_save_load_roundtrip (timer : PomodoroTimer.State) (now : String)
    (st : DataManager.Store) :
    DataManager.load_timer_data (DataManager.save_timer_data timer now st).1 =
      some
        { timer_config := some timer.timer_config
          sessions_completed := some timer.total_sessions
          completed_sessions := some timer.completed_sessions
          last_saved := some now } ∧
      (DataManager.save_timer_data timer now st).2 = true := by
  constructor
  · simp [DataManager.load_timer_data, DataManager.save_timer_data]
  · rfl

/-- C4: evaluating the code at the claimed example input. Starting from
the default cyclic timer (`sessions_until_long_break = 4`) and completing
sessions back-to-back, the session types entered after the 1st, 2nd, 3rd
and 4th completed work sessions are `short_break, short_break,
long_break, short_break` — not the claimed `short_break, short_break,
short_break, long_break`: `complete_session` increments the work counter
before calling `get_next_session_type`, so the long break follows the 3rd
work session. -/
theorem C4_break_sequence :
    [(PomodoroTimer.runBasic
        [PomodoroTimer.BasicOp.complete "t1"]
        (PomodoroTimer.init 25 5 15)).current_session_type,
     (PomodoroTimer.runBasic
        [PomodoroTimer.BasicOp.complete "t1", PomodoroTimer.BasicOp.complete "t2",
         PomodoroTimer.BasicOp.complete "t3"]
        (PomodoroTimer.init 25 5 15)).current_session_type,
     (PomodoroTimer.runBasic
        [PomodoroTimer.BasicOp.complete "t1", PomodoroTimer.BasicOp.complete "t2",
         PomodoroTimer.BasicOp.complete "t3", PomodoroTimer.BasicOp.complete "t4",
         PomodoroTimer.BasicOp.complete "t5"]
        (PomodoroTimer.init 25 5 15)).current_session_type,
     (PomodoroTimer.runBasic
        [PomodoroTimer.BasicOp.complete "t1", PomodoroTimer.BasicOp.complete "t2",
         PomodoroTimer.BasicOp.complete "t3", PomodoroTimer.BasicOp.complete "t4",
         PomodoroTimer.BasicOp.complete "t5", PomodoroTimer.BasicOp.complete "t6",
         PomodoroTimer.BasicOp.complete "t7"]
        (PomodoroTimer.init 25 5 15)).current_session_type] =
      [SessionType.short_break, SessionType.short_break,
       SessionType.long_break, SessionType.short_break] := by
  decide

/-- C5: for every cyclic-timer state with a nonzero long-break period,
`complete_session` appends exactly one record for the just-finished
session (duration looked up from the configuration by that session's
type; session number = work counter + 1 for a finished work session,
else the unincremented counter), increments the work and total counters
if and only if the finished type was `work`, sets the session type to
`get_next_session_type` of the updated state, and resets the remaining
time to the new type's configured duration times 60. -/
theorem C5_complete_session (s : PomodoroTimer.State) (now : String)
    (hN : s.timer_config.sessions_until_long_break ≠ 0) :
    (PomodoroTimer.complete_session now s).completed_sessions =
      s.completed_sessions ++
        [{ type := s.current_session_type
           duration :=
             PomodoroTimer.get_session_duration s.timer_config s.current_session_type
           completed_at := now
           session_number :=
             if s.current_session_type = SessionType.work then s.sessions_completed + 1
             else s.sessions_completed }] ∧
    (PomodoroTimer.complete_session now s).sessions_completed =
      (if s.current_session_type = SessionType.work then s.sessions_completed + 1
       else s.sessions_completed) ∧
    (PomodoroTimer.complete_session now s).total_sessions =
      (if s.current_session_type = SessionType.work then s.total_sessions + 1
       else s.total_sessions) ∧
    PomodoroTimer.get_next_session_type
        { s with
            completed_sessions := (PomodoroTimer.complete_session now s).completed_sessions
            sessions_completed := (PomodoroTimer.complete_session now s).sessions_completed
            total_sessions := (PomodoroTimer.complete_session now s).total_sessions } =
      some (PomodoroTimer.complete_session now s).current_session_type ∧
    (PomodoroTimer.complete_session now s).remaining_time =
      PomodoroTimer.get_session_duration s.timer_config
        (PomodoroTimer.complete_session now s).current_session_type * 60 ∧
    (PomodoroTimer.complete_session now s).timer_config = s.timer_config := by
  obtain ⟨cfg, recs, cur, sc, tot, rem, running⟩ := s
  cases cur <;>
    simp only [PomodoroTimer.complete_session, PomodoroTimer.get_next_session_type,
      PomodoroTimer.get_session_duration] at * <;>
    split_ifs <;> simp_all

/-- C5 (witness): the theorem applied at the default-configured initial
state. -/
theorem C5_complete_session_witness :
    (PomodoroTimer.complete_session "x" (PomodoroTimer.init 25 5 15)).completed_sessions =
      (PomodoroTimer.init 25 5 15).completed_sessions ++
        [{ type := (PomodoroTimer.init 25 5 15).current_session_type
           duration :=
             PomodoroTimer.get_session_duration (PomodoroTimer.init 25 5 15).timer_config
               (PomodoroTimer.init 25 5 15).current_session_type
           completed_at := "x"
           session_number :=
             if (PomodoroTimer.init 25 5 15).current_session_type = SessionType.work then
               (PomodoroTimer.init 25 5 15).sessions_completed + 1
             else (PomodoroTimer.init 25 5 15).sessions_completed }] ∧
    (PomodoroTimer.complete_session "x" (PomodoroTimer.init 25 5 15)).sessions_completed =
      (if (PomodoroTimer.init 25 5 15).current_session_type = SessionType.work then
         (PomodoroTimer.init 25 5 15).sessions_completed + 1
       else (PomodoroTimer.init 25 5 15).sessions_completed) ∧
    (PomodoroTimer.complete_session "x" (PomodoroTimer.init 25 5 15)).total_sessions =
      (if (PomodoroTimer.init 25 5 15).current_session_type = SessionType.work then
         (PomodoroTimer.init 25 5 15).total_sessions + 1
       else (PomodoroTimer.init 25 5 15).total_sessions) ∧
    PomodoroTimer.get_next_session_type
        { PomodoroTimer.init 25 5 15 with
            completed_sessions :=
              (PomodoroTimer.complete_session "x"
                (PomodoroTimer.init 25 5 15)).completed_sessions
            sessions_completed :=
              (PomodoroTimer.complete_session "x"
                (PomodoroTimer.init 25 5 15)).sessions_completed
            total_sessions :=
              (PomodoroTimer.complete_session "x"
                (PomodoroTimer.init 25 5 15)).total_sessions } =
      some (PomodoroTimer.complete_session "x"
        (PomodoroTimer.init 25 5 15)).current_session_type ∧
    (PomodoroTimer.complete_session "x" (PomodoroTimer.init 25 5 15)).remaining_time =
      PomodoroTimer.get_session_duration (PomodoroTimer.init 25 5 15).timer_config
        (PomodoroTimer.complete_session "x"
          (PomodoroTimer.init 25 5 15)).current_session_type * 60 ∧
    (PomodoroTimer.complete_session "x" (PomodoroTimer.init 25 5 15)).timer_config =
      (PomodoroTimer.init 25 5 15).timer_config :=
  C5_complete_session (PomodoroTimer.init 25 5 15) "x" (by decide)

/-- C9: for the revision timer, `get_next_session_type` is the identity
on `revision`; `complete_session` always appends one record, increments
both the session counter and the total counter by one, and resets the
remaining time to the configured duration times 60 (in every state whose
stored duration is the configured minutes times 60, as all reachable
states are); and for a revision timer with duration 60, after `start`
then one `complete_session`, `get_current_session_info` returns
`(revision, 3600, 1)`. -/
theorem C9_revision_behavior (s : RevisionTimer.State) (now : String)
    (h : s.duration = RevisionTimer.get_timer_config s * 60) :
    RevisionTimer.get_next_session_type s = SessionType.revision ∧
    (RevisionTimer.complete_session now s).completed_sessions =
      s.completed_sessions ++
        [{ type := SessionType.revision
           duration := RevisionTimer.get_timer_config s
           completed_at := now
           session_number := s.sessions_completed + 1 }] ∧
    (RevisionTimer.complete_session now s).sessions_completed =
      s.sessions_completed + 1 ∧
    (RevisionTimer.complete_session now s).total_sessions = s.total_sessions + 1 ∧
    (RevisionTimer.complete_session now s).remaining_time =
      RevisionTimer.get_timer_config s * 60 ∧
    RevisionTimer.get_current_session_info
        (RevisionTimer.complete_session "t"
          (RevisionTimer.start_timer (RevisionTimer.init 60))) =
      (SessionType.revision, 3600, 1) := by
  refine ⟨rfl, rfl, rfl, rfl, ?_, by decide⟩
  simpa [RevisionTimer.complete_session] using h

/-- C9 (witness): the theorem applied at the freshly initialised
60-minute revision timer. -/
theorem C9_revision_behavior_witness :
    RevisionTimer.get_next_session_type (RevisionTimer.init 60) = SessionType.revision ∧
    (RevisionTimer.complete_session "x" (RevisionTimer.init 60)).completed_sessions =
      (RevisionTimer.init 60).completed_sessions ++
        [{ type := SessionType.revision
           duration := RevisionTimer.get_timer_config (RevisionTimer.init 60)
           completed_at := "x"
           session_number := (RevisionTimer.init 60).sessions_completed + 1 }] ∧
    (RevisionTimer.complete_session "x" (RevisionTimer.init 60)).sessions_completed =
      (RevisionTimer.init 60).sessions_completed + 1 ∧
    (RevisionTimer.complete_session "x" (RevisionTimer.init 60)).total_sessions =
      (RevisionTimer.init 60).total_sessions + 1 ∧
    (RevisionTimer.complete_session "x" (RevisionTimer.init 60)).remaining_time =
      RevisionTimer.get_timer_config (RevisionTimer.init 60) * 60 ∧
    RevisionTimer.get_current_session_info
        (RevisionTimer.complete_session "t"
          (RevisionTimer.start_timer (RevisionTimer.init 60))) =
      (SessionType.revision, 3600, 1) :=
  C9_revision_behavior (RevisionTimer.init 60) "x" (by decide)

/-- Helper for C10: the completed-session counter, the total counter and
the record count move in lock step under every revision-timer
operation. -/
theorem revision_run_counters (ops : List RevisionTimer.Op) (s : RevisionTimer.State)
    (h1 : s.sessions_completed = s.total_sessions)
    (h2 : (s.completed_sessions.length : Int) = s.sessions_completed) :
    (RevisionTimer.run ops s).sessions_completed =
      (RevisionTimer.run ops s).total_sessions ∧
      ((RevisionTimer.run ops s).completed_sessions.length : Int) =
        (RevisionTimer.run ops s).sessions_completed := by
  induction ops generalizing s with
  | nil => exact ⟨h1, h2⟩
  | cons op ops ih =>
      have hstep : RevisionTimer.run (op :: ops) s =
          RevisionTimer.run ops (RevisionTimer.applyOp op s) := rfl
      rw [hstep]
      refine ih _ ?_ ?_
      · cases op with
        | start => simpa [RevisionTimer.applyOp, RevisionTimer.start_timer] using h1
        | complete now =>
            simpa [RevisionTimer.applyOp, RevisionTimer.complete_session] using h1
        | update nc =>
            rcases nc with _ | dd
            · simpa [RevisionTimer.applyOp, RevisionTimer.update_config] using h1
            · simp only [RevisionTimer.applyOp, RevisionTimer.update_config]
              split_ifs <;> simp_all
      · cases op with
        | start => simpa [RevisionTimer.applyOp, RevisionTimer.start_timer] using h2
        | complete now =>
            simp [RevisionTimer.applyOp, RevisionTimer.complete_session]
            omega
        | update nc =>
            rcases nc with _ | dd
            · simpa [RevisionTimer.applyOp, RevisionTimer.update_config] using h2
            · simp only [RevisionTimer.applyOp, RevisionTimer.update_config]
              split_ifs <;> simp_all

/-- C10: for every revision-timer state reachable from the initial state
by any sequence of `start_timer`, `update_config` and `complete_session`
operations, the completed-session counter equals the total-session
counter, the third component of `get_current_session_info` equals that
counter, and the counter equals the number of recorded sessions. -/
theorem C10_revision_counters (ops : List RevisionTimer.Op) (d : Int) :
    (RevisionTimer.run ops (RevisionTimer.init d)).sessions_completed =
      (RevisionTimer.run ops (RevisionTimer.init d)).total_sessions ∧
    (RevisionTimer.get_current_session_info
        (RevisionTimer.run ops (RevisionTimer.init d))).2.2 =
      (RevisionTimer.run ops (RevisionTimer.init d)).sessions_completed ∧
    ((RevisionTimer.run ops (RevisionTimer.init d)).completed_sessions.length : Int) =
      (RevisionTimer.run ops (RevisionTimer.init d)).sessions_completed := by
  have h := revision_run_counters ops (RevisionTimer.init d) rfl rfl
  exact ⟨h.1, by simp [RevisionTimer.get_current_session_info, h.1], h.2⟩

/-- C3 (counterexample): completing the first work session of the
default cyclic timer and then performing a successful `update_config`
that re-supplies the existing durations yields a state whose remaining
time (1500 s, the work duration) exceeds the current session's duration
(short break, 300 s), violating the claimed invariant. -/
theorem C3_counterexample :
    PomodoroTimer.update_config
        (PomodoroTimer.complete_session "t" (PomodoroTimer.init 25 5 15))
        { work_duration := some 25, short_break := some 5 } =
      some (counterexampleStateC3, true) ∧
    PomodoroTimer.get_session_duration counterexampleStateC3.timer_config
        counterexampleStateC3.current_session_type * 60 <
      counterexampleStateC3.remaining_time := by
  exact ⟨rfl, by decide⟩

/-- Helper for C3: every basic operation (start, pause/stop,
complete_session) preserves the valid configuration and the state
invariant. -/
theorem applyBasicOp_preserves (op : PomodoroTimer.BasicOp) (s : PomodoroTimer.State)
    (hc : PomodoroTimer.GoodConfig s.timer_config) (h : PomodoroTimer.Inv s) :
    PomodoroTimer.GoodConfig (PomodoroTimer.applyBasicOp op s).timer_config ∧
      PomodoroTimer.Inv (PomodoroTimer.applyBasicOp op s) := by
  obtain ⟨hw, hsb, hlb, hN⟩ := hc
  obtain ⟨h0, hb, hm⟩ := h
  cases op with
  | start => exact ⟨⟨hw, hsb, hlb, hN⟩, h0, hb, hm⟩
  | pause => exact ⟨⟨hw, hsb, hlb, hN⟩, h0, hb, hm⟩
  | complete now =>
      obtain ⟨cfg, recs, cur, sc, tot, rem, running⟩ := s
      simp only [PomodoroTimer.applyBasicOp] at *
      cases cur <;>
        simp_all [PomodoroTimer.complete_session, PomodoroTimer.get_next_session_type,
          PomodoroTimer.get_session_duration, PomodoroTimer.GoodConfig,
          PomodoroTimer.Inv, PomodoroTimer.session_types] <;>
        (try split_ifs) <;>
        (try simp_all) <;>
        omega

/-- Helper for C3: the invariant holds after any sequence of basic
operations from an invariant state with a valid configuration. -/
theorem runBasic_preserves (ops : List PomodoroTimer.BasicOp) (s : PomodoroTimer.State)
    (hc : PomodoroTimer.GoodConfig s.timer_config) (h : PomodoroTimer.Inv s) :
    PomodoroTimer.Inv (PomodoroTimer.runBasic ops s) := by
  induction ops generalizing s with
  | nil => exact h
  | cons op ops ih =>
      have hstep : PomodoroTimer.runBasic (op :: ops) s =
          PomodoroTimer.runBasic ops (PomodoroTimer.applyBasicOp op s) := rfl
      rw [hstep]
      obtain ⟨hc1, h1⟩ := applyBasicOp_preserves op s hc h
      exact ih _ hc1 h1

/-- C3 (amended): for every cyclic-timer state reachable from an initial
state with positive configured durations by any sequence of start,
pause/stop and complete_session operations (no `update_config`, which
the counterexample shows can break the upper bound), the remaining time
lies between 0 and the current session's duration times 60, and the
current session type is always a member of the valid type set. -/
theorem C3_invariant_amended (w sb lb : Int) (ops : List PomodoroTimer.BasicOp)
    (h : 1 ≤ w ∧ 1 ≤ sb ∧ 1 ≤ lb) :
    0 ≤ (PomodoroTimer.runBasic ops (PomodoroTimer.init w sb lb)).remaining_time ∧
    (PomodoroTimer.runBasic ops (PomodoroTimer.init w sb lb)).remaining_time ≤
      PomodoroTimer.get_session_duration
        (PomodoroTimer.runBasic ops (PomodoroTimer.init w sb lb)).timer_config
        (PomodoroTimer.runBasic ops (PomodoroTimer.init w sb lb)).current_session_type * 60 ∧
    (PomodoroTimer.runBasic ops (PomodoroTimer.init w sb lb)).current_session_type ∈
      PomodoroTimer.session_types := by
  obtain ⟨hw, hsb, hlb⟩ := h
  have hgc : PomodoroTimer.GoodConfig (PomodoroTimer.init w sb lb).timer_config := by
    exact ⟨hw, hsb, hlb, by simp [PomodoroTimer.init]⟩
  have hinv : PomodoroTimer.Inv (PomodoroTimer.init w sb lb) := by
    refine ⟨?_, ?_, ?_⟩
    · show (0 : Int) ≤ w * 60
      omega
    · show w * 60 ≤ w * 60
      omega
    · show SessionType.work ∈ PomodoroTimer.session_types
      decide
  exact runBasic_preserves ops (PomodoroTimer.init w sb lb) hgc hinv

/-- C3 (witness): the amended theorem applied at the default
configuration and a concrete operation sequence (start, complete the
work session, pause). -/
theorem C3_invariant_amended_witness :
    0 ≤ (PomodoroTimer.runBasic
        [PomodoroTimer.BasicOp.start, PomodoroTimer.BasicOp.complete "t",
         PomodoroTimer.BasicOp.pause]
        (PomodoroTimer.init 25 5 15)).remaining_time ∧
    (PomodoroTimer.runBasic
        [PomodoroTimer.BasicOp.start, PomodoroTimer.BasicOp.complete "t",
         PomodoroTimer.BasicOp.pause]
        (PomodoroTimer.init 25 5 15)).remaining_time ≤
      PomodoroTimer.get_session_duration
        (PomodoroTimer.runBasic
          [PomodoroTimer.BasicOp.start, PomodoroTimer.BasicOp.complete "t",
           PomodoroTimer.BasicOp.pause]
          (PomodoroTimer.init 25 5 15)).timer_config
        (PomodoroTimer.runBasic
          [PomodoroTimer.BasicOp.start, PomodoroTimer.BasicOp.complete "t",
           PomodoroTimer.BasicOp.pause]
          (PomodoroTimer.init 25 5 15)).current_session_type * 60 ∧
    (PomodoroTimer.runBasic
        [PomodoroTimer.BasicOp.start, PomodoroTimer.BasicOp.complete "t",
         PomodoroTimer.BasicOp.pause]
        (PomodoroTimer.init 25 5 15)).current_session_type ∈
      PomodoroTimer.session_types :=
  C3_invariant_amended 25 5 15
    [PomodoroTimer.BasicOp.start, PomodoroTimer.BasicOp.complete "t",
     PomodoroTimer.BasicOp.pause]
    (by decide)
